import Mathlib

/-!
Verification of the AI-Powered Blog Post Summarizer (src/app.py) against its
natural-language specification. The Flask request handler, the Hugging Face
query helper and the URL text extractor are shallowly embedded below; outcomes
of the two outbound network calls are supplied as explicit oracle values, and
user-visible effects (flash messages, rendered bullet points, HTTP requests
issued) are collected in result records.
-/

set_option autoImplicit false

/-- Decoded JSON values, as produced by `response_obj.json()` in src/app.py
line 58: null, booleans, numbers, strings, arrays and objects. -/
inductive JVal where
  | jnull : JVal
  | jbool : Bool → JVal
  | jnum : Int → JVal
  | jstr : String → JVal
  | jlist : List JVal → JVal
  | jobj : List (String × JVal) → JVal

/-- Python `len` on a string (number of code points). -/
def pyLen (s : String) : Nat :=
  s.data.length

/-- Python truthiness of a string: empty strings are falsy. -/
def pyEmpty (s : String) : Bool :=
  s.data.isEmpty

/-- Python slice `s[:n]`. -/
def pySlice (s : String) (n : Nat) : String :=
  String.mk (s.data.take n)

/-- Python `s.strip()`: remove leading and trailing whitespace. -/
def pyStrip (s : String) : String :=
  String.mk (((s.data.dropWhile Char.isWhitespace).reverse.dropWhile Char.isWhitespace).reverse)

/-- Python `s.lower()`. -/
def pyLower (s : String) : String :=
  String.mk (s.data.map Char.toLower)

/-- Python `s.startswith(p)`. -/
def pyStartsWith (s p : String) : Bool :=
  p.data.isPrefixOf s.data

/-- Python substring membership `needle in hay` for strings. -/
def pyIn (needle hay : String) : Bool :=
  (List.range (hay.data.length + 1)).any (fun i => needle.data.isPrefixOf (hay.data.drop i))

/-- First value bound to `key` in a decoded JSON object: Python dict
membership `key in d` succeeds exactly when this is `some`, and `d[key]`
then yields the value. -/
def lookupField : List (String × JVal) → String → Option JVal
  | [], _ => none
  | (k, v) :: rest, key => if k = key then some v else lookupField rest key

/-- Python `==` between a string and a decoded JSON value (used by list
membership `"summary_text" in result[0]` when `result[0]` is a list). -/
def jvalIsStr (v : JVal) (s : String) : Bool :=
  match v with
  | JVal.jstr t => t = s
  | _ => false

/-- Python list membership `s in xs` over decoded JSON values. -/
def listHasStr (xs : List JVal) (s : String) : Bool :=
  xs.any (fun v => jvalIsStr v s)

/-- Python truthiness of a decoded JSON value. -/
def jtruthy : JVal → Bool
  | JVal.jnull => false
  | JVal.jbool b => b
  | JVal.jnum n => decide (n ≠ 0)
  | JVal.jstr s => !pyEmpty s
  | JVal.jlist xs => !xs.isEmpty
  | JVal.jobj fs => !fs.isEmpty

/-- The process-wide API token shipped in src/app.py line 12. -/
def HF_API_TOKEN : String := "HF_TOKEN"

/-- The placeholder substring checked at src/app.py line 33. -/
def placeholderToken : String := "YOUR_NEW_HUGGING_FACE_API_TOKEN"

/-- Error returned at src/app.py line 34. -/
def configErrorMsg : String := "Error: Hugging Face API Token not configured."

/-- Warning flashed at src/app.py line 40. -/
def truncationWarningMsg : String := "Input text was truncated to a reasonable length for the model."

/-- Error returned at src/app.py line 62. -/
def parseErrorMsg : String := "Error: Could not parse model response or no summary found."

/-- Error returned at src/app.py line 65, with the exception text appended
in place of the format field. -/
def requestFailedMsg (e : String) : String :=
  "Error: Summarization API request failed. " ++ e

/-- Error returned at src/app.py line 67, with the exception text appended
in place of the format field. -/
def unexpectedErrorMsg (e : String) : String :=
  "Error: An unexpected error occurred. " ++ e

/-- Error returned at src/app.py line 69 when the retry loop falls through. -/
def retriesExhaustedMsg : String := "Error: Summarization Model query failed after multiple retries."

/-- CPython TypeError text names the operand type; only the handler prefix
added by line 67 matters to the properties proved below. -/
def pyTypeName : JVal → String
  | JVal.jnull => "NoneType"
  | JVal.jbool _ => "bool"
  | JVal.jnum _ => "int"
  | JVal.jstr _ => "str"
  | JVal.jlist _ => "list"
  | JVal.jobj _ => "dict"

/-- CPython message of the TypeError raised by `"summary_text" in v` when `v`
is not a container or string. -/
def inTypeErrorText (v : JVal) : String :=
  "argument of type " ++ pyTypeName v ++ " is not iterable"

/-- CPython message of the TypeError raised by `v["summary_text"]` when `v`
is a string. -/
def strIndexTypeErrorText : String := "string indices must be integers"

/-- CPython message of the TypeError raised by `v["summary_text"]` when `v`
is a list. -/
def listIndexTypeErrorText : String := "list indices must be integers or slices, not str"

/-- Lines 58-62 together with the surrounding `except` handlers, applied to a
decoded JSON response `result`. Mirrors Python evaluation order:
`isinstance(result, list) and result and "summary_text" in result[0]` with
short-circuiting, where the membership test on a non-container first element
raises TypeError (caught at line 66), as does the subsequent indexing
`result[0]["summary_text"]` when the first element is a string or list.
Encoding of the first component: `some v` records that the line 60 return
executed with value `v`, where `JVal.jnull` denotes the Python value None;
`none` records the literal None of the other returns. Python itself has a
single None, so `some JVal.jnull` and `none` denote the same returned value;
`pyIsNone` below collapses the encoding to that value level. -/
def parseResponse (result : JVal) : Option JVal × Option String :=
  match result with
  | JVal.jlist (first :: _) =>
    match first with
    | JVal.jobj fields =>
      match lookupField fields "summary_text" with
      | some v => (some v, none)
      | none => (none, some parseErrorMsg)
    | JVal.jstr s =>
      if pyIn "summary_text" s then (none, some (unexpectedErrorMsg strIndexTypeErrorText))
      else (none, some parseErrorMsg)
    | JVal.jlist ys =>
      if listHasStr ys "summary_text" then (none, some (unexpectedErrorMsg listIndexTypeErrorText))
      else (none, some parseErrorMsg)
    | JVal.jnull => (none, some (unexpectedErrorMsg (inTypeErrorText JVal.jnull)))
    | JVal.jbool b => (none, some (unexpectedErrorMsg (inTypeErrorText (JVal.jbool b))))
    | JVal.jnum n => (none, some (unexpectedErrorMsg (inTypeErrorText (JVal.jnum n))))
  | _ => (none, some parseErrorMsg)

/-- Whether the summary component of a returned pair is the Python value
None: true for the literal None of the failure returns and for a returned
JSON null (the decoded `result[0]["summary_text"]` when that field is null),
which Python cannot tell apart. -/
def pyIsNone : Option JVal → Bool
  | none => true
  | some JVal.jnull => true
  | some _ => false

/-- Outcome of one `requests.post` attempt (src/app.py line 56): either a
response whose body decodes to a JSON value (status raised no error), or a
`requests.exceptions.RequestException` (transport failure, HTTP error status,
timeout), or any other exception, each carrying its message text. -/
inductive AttemptOutcome where
  | resp : JVal → AttemptOutcome
  | reqExc : String → AttemptOutcome
  | otherExc : String → AttemptOutcome

/-- Result of one iteration of the retry loop body (lines 55-67): the `try`
block parses the response, the first `except` arm maps a RequestException,
the second maps any other exception. -/
def attemptResult : AttemptOutcome → Option JVal × Option String
  | AttemptOutcome.resp j => parseResponse j
  | AttemptOutcome.reqExc e => (none, some (requestFailedMsg e))
  | AttemptOutcome.otherExc e => (none, some (unexpectedErrorMsg e))

/-- The retry loop of src/app.py lines 54-69. Every control path of the loop
body ends in `return` (success, parse failure, and both `except` arms), so an
iteration that runs yields the body result after one HTTP POST; with
`retries = 0` the `for` over an empty range falls through to line 69 with no
request issued. The oracle gives attempt `i` its network outcome; the second
component counts POST requests issued. -/
def retryLoop (oracle : Nat → AttemptOutcome) (i : Nat) : Nat → (Option JVal × Option String) × Nat
  | 0 => ((none, some retriesExhaustedMsg), 0)
  | _ + 1 => (attemptResult (oracle i), 1)

/-- Observable result of `query_summarization_model`: the returned pair
(summary value, error message), the warnings flashed, and the `inputs` field
of each HTTP request issued. -/
structure QueryResult where
  summary : Option JVal
  error : Option String
  warnings : List String
  requests : List String

/-- src/app.py lines 32-69, `query_summarization_model`, parameterised by the
configured token and by a network oracle. The credential check (line 33) runs
first; then the input is truncated to 1024 * 5 characters with a warning when
longer (lines 37-40); the payload carries the (possibly truncated) text as its
`inputs` field (lines 43-50); then the retry loop runs. -/
def query_summarization_model (token text : String) (retries : Nat)
    (oracle : Nat → AttemptOutcome) : QueryResult :=
  if pyEmpty token || pyIn placeholderToken token then
    { summary := none, error := some configErrorMsg, warnings := [], requests := [] }
  else
    let warnings := if 5120 < pyLen text then [truncationWarningMsg] else []
    let payloadInputs := if 5120 < pyLen text then pySlice text 5120 else text
    let r := retryLoop oracle 0 retries
    { summary := r.1.1, error := r.1.2, warnings := warnings,
      requests := List.replicate r.2 payloadInputs }

/-- Outcome of the newspaper `Article` download-and-parse at src/app.py lines
75-77: either both steps succeed and `article.text` holds the extracted text
(possibly empty), or some step raises an exception with the given message. -/
inductive FetchOutcome where
  | ok : String → FetchOutcome
  | exc : String → FetchOutcome

/-- Error returned at src/app.py line 79. -/
def emptyExtractionMsg : String :=
  "Could not extract article text from the URL. The page might be empty or require JavaScript."

/-- Error returned at src/app.py line 83, with the exception text appended in
place of the format field. -/
def urlFailedMsg (e : String) : String :=
  "Failed to process the URL. Please check if it\x27s a valid article URL. Error: " ++ e

/-- src/app.py lines 72-83, `get_text_from_url`, with the network outcome
supplied by the caller: empty `article.text` maps to an error (line 79),
any exception maps to the line 83 error, success returns the text. -/
def get_text_from_url (outcome : FetchOutcome) : Option String × Option String :=
  match outcome with
  | FetchOutcome.ok t => if pyEmpty t then (none, some emptyExtractionMsg) else (some t, none)
  | FetchOutcome.exc e => (none, some (urlFailedMsg e))

/-- Modelled from the spec: `nltk.sent_tokenize` (src/app.py line 114) is the
NLTK punkt tokenizer, a third-party resource whose code is not under src/.
Spec section 4.3 asks for standard sentence-boundary segmentation with order
preserved and an empty sequence on empty input, and section 9 documents a
naive punctuation-based split as the fallback realisation; we model that
split: cut after each of the characters period, exclamation mark and question
mark, keep the terminator, drop leading whitespace of each piece and drop
empty pieces. Auxiliary recursion over the character list with an accumulator
for the sentence being read. -/
def splitSentencesAux : List Char → List Char → List (List Char)
  | [], acc => if acc.isEmpty then [] else [acc.reverse]
  | c :: cs, acc =>
    if c = '.' || c = '!' || c = '?' then (c :: acc).reverse :: splitSentencesAux cs []
    else splitSentencesAux cs (c :: acc)

/-- Modelled from the spec: sentence splitting for bullet points; see
`splitSentencesAux`. -/
def sent_tokenize (s : String) : List String :=
  ((splitSentencesAux s.data []).map
      (fun cs => String.mk (cs.dropWhile Char.isWhitespace))).filter
    (fun t => !pyEmpty t)

/-- Warning flashed at src/app.py line 97. -/
def pleaseEnterMsg : String := "Please enter a URL or paste some text."

/-- Message flashed at src/app.py line 108. -/
def acquiredMsg : String := "Content acquired. Generating summary..."

/-- Message flashed at src/app.py line 115. -/
def successMsg : String := "Summary generated successfully!"

/-- Warning flashed at src/app.py line 117. -/
def noSummaryMsg : String := "The model did not return a summary."

/-- Observable outcome of one POST request to the `summarizer` route: the
rendered `bullet_points` and `source_info`, the flashed messages in order
(message, category), how many times `query_summarization_model` was invoked,
the final value of the `article_text` local when truthy (`none` encodes the
falsy initial value or `None`), and whether `render_template` was reached
(`false` when an uncaught exception escapes the handler). -/
structure PageResult where
  bullet_points : List String
  source_info : String
  flashes : List (String × String)
  modelCalls : Nat
  article_text : Option String
  rendered : Bool

/-- src/app.py lines 107-117: the summarization-and-splitting tail of the
handler, run when `article_text` is truthy, carrying the flashes accumulated
so far. The model is called with the default `retries=3`; the truncation
warning it flashes lands after the line 108 info flash. When the summary
value is truthy but not a string, `nltk.sent_tokenize` raises and the
handler never renders. -/
def runSummarization (src : String) (fl : List (String × String)) (t token : String)
    (oracle : Nat → AttemptOutcome) : PageResult :=
  let q := query_summarization_model token t 3 oracle
  let fl2 := fl ++ [(acquiredMsg, "info")] ++ q.warnings.map (fun w => (w, "warning"))
  match q.error with
  | some e =>
    { bullet_points := [], source_info := src, flashes := fl2 ++ [(e, "danger")],
      modelCalls := 1, article_text := some t, rendered := true }
  | none =>
    match q.summary with
    | some v =>
      if jtruthy v then
        match v with
        | JVal.jstr s =>
          { bullet_points := sent_tokenize s, source_info := src,
            flashes := fl2 ++ [(successMsg, "success")], modelCalls := 1,
            article_text := some t, rendered := true }
        | _ =>
          { bullet_points := [], source_info := src, flashes := fl2,
            modelCalls := 1, article_text := some t, rendered := false }
      else
        { bullet_points := [], source_info := src,
          flashes := fl2 ++ [(noSummaryMsg, "warning")], modelCalls := 1,
          article_text := some t, rendered := true }
    | none =>
      { bullet_points := [], source_info := src,
        flashes := fl2 ++ [(noSummaryMsg, "warning")], modelCalls := 1,
        article_text := some t, rendered := true }

/-- src/app.py lines 86-121, the POST branch of the `summarizer` route.
`raw` is the form field `user_input` (stripped at line 92); `fetch` is the
outcome the network would give `get_text_from_url`; `oracle` the outcomes of
the model POSTs. Empty input flashes a warning (line 97); an input whose
lower-cased form starts with "http" goes through URL extraction (lines
98-102); anything else is used directly as article text (lines 103-105);
lines 107-117 then run only when `article_text` is truthy. -/
def summarizerPost (raw : String) (fetch : FetchOutcome) (token : String)
    (oracle : Nat → AttemptOutcome) : PageResult :=
  let user_input := pyStrip raw
  if pyEmpty user_input then
    { bullet_points := [], source_info := "", flashes := [(pleaseEnterMsg, "warning")],
      modelCalls := 0, article_text := none, rendered := true }
  else if pyStartsWith (pyLower user_input) "http" then
    let src := "From URL: " ++ user_input
    let res := get_text_from_url fetch
    let fl := match res.2 with
      | some e => [(e, "danger")]
      | none => []
    match res.1 with
    | some t =>
      if pyEmpty t then
        { bullet_points := [], source_info := src, flashes := fl, modelCalls := 0,
          article_text := none, rendered := true }
      else runSummarization src fl t token oracle
    | none =>
      { bullet_points := [], source_info := src, flashes := fl, modelCalls := 0,
        article_text := none, rendered := true }
  else
    runSummarization "From Pasted Text" [] user_input token oracle

theorem append_ne_of_take_ne (s t : String) (h : t.data.take s.data.length ≠ s.data)
    (e : String) : s ++ e ≠ t := by
  intro heq
  apply h
  have hd : s.data ++ e.data = t.data := by
    rw [← String.data_append, heq]
  rw [← hd, List.take_left]

theorem unexpected_ne_retries (e : String) : unexpectedErrorMsg e ≠ retriesExhaustedMsg :=
  append_ne_of_take_ne "Error: An unexpected error occurred. " retriesExhaustedMsg (by decide) e

theorem reqfail_ne_retries (e : String) : requestFailedMsg e ≠ retriesExhaustedMsg :=
  append_ne_of_take_ne "Error: Summarization API request failed. " retriesExhaustedMsg (by decide) e

theorem unexpected_ne_config (e : String) : unexpectedErrorMsg e ≠ configErrorMsg :=
  append_ne_of_take_ne "Error: An unexpected error occurred. " configErrorMsg (by decide) e

theorem reqfail_ne_config (e : String) : requestFailedMsg e ≠ configErrorMsg :=
  append_ne_of_take_ne "Error: Summarization API request failed. " configErrorMsg (by decide) e

theorem unexpected_ne_parse (e : String) : unexpectedErrorMsg e ≠ parseErrorMsg :=
  append_ne_of_take_ne "Error: An unexpected error occurred. " parseErrorMsg (by decide) e

/-- Every branch of the response parsing returns no error with a summary, or
the parse error, or an unexpected-exception error. -/
theorem parseResponse_error_cases (j : JVal) :
    (parseResponse j).2 = none ∨ (parseResponse j).2 = some parseErrorMsg ∨
      ∃ e, (parseResponse j).2 = some (unexpectedErrorMsg e) := by
  rcases j with _ | b | n | s | xs | fs
  · exact Or.inr (Or.inl rfl)
  · exact Or.inr (Or.inl rfl)
  · exact Or.inr (Or.inl rfl)
  · exact Or.inr (Or.inl rfl)
  · rcases xs with _ | ⟨first, rest⟩
    · exact Or.inr (Or.inl rfl)
    · rcases first with _ | b | n | s | ys | fields
      · exact Or.inr (Or.inr ⟨_, rfl⟩)
      · exact Or.inr (Or.inr ⟨_, rfl⟩)
      · exact Or.inr (Or.inr ⟨_, rfl⟩)
      · by_cases h : pyIn "summary_text" s = true
        · exact Or.inr (Or.inr ⟨strIndexTypeErrorText, by simp [parseResponse, h]⟩)
        · exact Or.inr (Or.inl (by simp [parseResponse, h]))
      · by_cases h : listHasStr ys "summary_text" = true
        · exact Or.inr (Or.inr ⟨listIndexTypeErrorText, by simp [parseResponse, h]⟩)
        · exact Or.inr (Or.inl (by simp [parseResponse, h]))
      · cases h : lookupField fields "summary_text"
        · exact Or.inr (Or.inl (by simp [parseResponse, h]))
        · exact Or.inl (by simp [parseResponse, h])
  · exact Or.inr (Or.inl rfl)

/-- At the Python value level the parsed pair carries a summary with no
error, or an error with no summary, or, exactly when the line 60 return
passed through a null summary field, neither: the returned value is None and
the error is None as well. -/
theorem parseResponse_trichotomy (j : JVal) :
    (pyIsNone (parseResponse j).1 = false ∧ (parseResponse j).2 = none) ∨
      ((parseResponse j).1 = none ∧ (parseResponse j).2.isSome = true) ∨
      ((parseResponse j).1 = some JVal.jnull ∧ (parseResponse j).2 = none) := by
  rcases j with _ | b | n | s | xs | fs
  · exact Or.inr (Or.inl ⟨rfl, rfl⟩)
  · exact Or.inr (Or.inl ⟨rfl, rfl⟩)
  · exact Or.inr (Or.inl ⟨rfl, rfl⟩)
  · exact Or.inr (Or.inl ⟨rfl, rfl⟩)
  · rcases xs with _ | ⟨first, rest⟩
    · exact Or.inr (Or.inl ⟨rfl, rfl⟩)
    · rcases first with _ | b | n | s | ys | fields
      · exact Or.inr (Or.inl ⟨rfl, rfl⟩)
      · exact Or.inr (Or.inl ⟨rfl, rfl⟩)
      · exact Or.inr (Or.inl ⟨rfl, rfl⟩)
      · by_cases h : pyIn "summary_text" s = true
        · exact Or.inr (Or.inl (by simp [parseResponse, h]))
        · exact Or.inr (Or.inl (by simp [parseResponse, h]))
      · by_cases h : listHasStr ys "summary_text" = true
        · exact Or.inr (Or.inl (by simp [parseResponse, h]))
        · exact Or.inr (Or.inl (by simp [parseResponse, h]))
      · cases h : lookupField fields "summary_text" with
        | none => exact Or.inr (Or.inl (by simp [parseResponse, h]))
        | some v =>
          cases v with
          | jnull => exact Or.inr (Or.inr (by simp [parseResponse, h]))
          | jbool b => exact Or.inl (by simp [parseResponse, h, pyIsNone])
          | jnum n => exact Or.inl (by simp [parseResponse, h, pyIsNone])
          | jstr s => exact Or.inl (by simp [parseResponse, h, pyIsNone])
          | jlist ys => exact Or.inl (by simp [parseResponse, h, pyIsNone])
          | jobj gs => exact Or.inl (by simp [parseResponse, h, pyIsNone])
  · exact Or.inr (Or.inl ⟨rfl, rfl⟩)

/-- The error of one attempt is never the loop fall-through message. -/
theorem attemptResult_error_ne_retries (o : AttemptOutcome) :
    (attemptResult o).2 ≠ some retriesExhaustedMsg := by
  cases o with
  | resp j =>
    rcases parseResponse_error_cases j with h | h | ⟨e, h⟩ <;> simp [attemptResult, h]
    · decide
    · exact unexpected_ne_retries e
  | reqExc e => simpa [attemptResult] using reqfail_ne_retries e
  | otherExc e => simpa [attemptResult] using unexpected_ne_retries e

/-- The error of one attempt is never the configuration error. -/
theorem attemptResult_error_ne_config (o : AttemptOutcome) :
    (attemptResult o).2 ≠ some configErrorMsg := by
  cases o with
  | resp j =>
    rcases parseResponse_error_cases j with h | h | ⟨e, h⟩ <;> simp [attemptResult, h]
    · decide
    · exact unexpected_ne_config e
  | reqExc e => simpa [attemptResult] using reqfail_ne_config e
  | otherExc e => simpa [attemptResult] using unexpected_ne_config e

/-- With a valid token and at least one retry, the query performs exactly the
first attempt. -/
theorem query_spec_attempt (token text : String) (n : Nat) (oracle : Nat → AttemptOutcome)
    (htok : (pyEmpty token || pyIn placeholderToken token) = false) :
    query_summarization_model token text (n + 1) oracle =
      { summary := (attemptResult (oracle 0)).1, error := (attemptResult (oracle 0)).2,
        warnings := if 5120 < pyLen text then [truncationWarningMsg] else [],
        requests := [if 5120 < pyLen text then pySlice text 5120 else text] } := by
  unfold query_summarization_model retryLoop
  simp [htok]

/-- C1: for every input text and every retries value of at least 1, with a
configured (non-placeholder) token, query_summarization_model returns during
the first iteration of its retry loop: exactly one HTTP request is issued,
the result does not depend on the outcomes of any later attempt, and the
fall-through error after the loop is never the returned error. -/
theorem claim_C1_single_attempt (token text : String) (retries : Nat)
    (oracle oracle2 : Nat → AttemptOutcome)
    (htok : (pyEmpty token || pyIn placeholderToken token) = false)
    (hr : 1 ≤ retries) (hagree : oracle 0 = oracle2 0) :
    (query_summarization_model token text retries oracle).requests.length = 1 ∧
      query_summarization_model token text retries oracle =
        query_summarization_model token text retries oracle2 ∧
      (query_summarization_model token text retries oracle).error ≠ some retriesExhaustedMsg := by
  obtain ⟨n, rfl⟩ : ∃ n, retries = n + 1 := ⟨retries - 1, by omega⟩
  rw [query_spec_attempt token text n oracle htok, query_spec_attempt token text n oracle2 htok,
    hagree]
  exact ⟨rfl, rfl, attemptResult_error_ne_retries (oracle2 0)⟩

theorem claim_C1_witness :
    (pyEmpty "HF_TOKEN" || pyIn placeholderToken "HF_TOKEN") = false ∧ 1 ≤ 1 ∧
      ((query_summarization_model "HF_TOKEN" "hello" 1
            (fun _ => AttemptOutcome.reqExc "boom")).requests.length = 1 ∧
        query_summarization_model "HF_TOKEN" "hello" 1 (fun _ => AttemptOutcome.reqExc "boom") =
          query_summarization_model "HF_TOKEN" "hello" 1 (fun _ => AttemptOutcome.reqExc "boom") ∧
        (query_summarization_model "HF_TOKEN" "hello" 1
            (fun _ => AttemptOutcome.reqExc "boom")).error ≠ some retriesExhaustedMsg) :=
  ⟨by decide, by decide,
    claim_C1_single_attempt "HF_TOKEN" "hello" 1 (fun _ => AttemptOutcome.reqExc "boom")
      (fun _ => AttemptOutcome.reqExc "boom") (by decide) (by decide) rfl⟩

/-- With an empty or placeholder token the query returns the configuration
error at once: no warning, no request. -/
theorem query_config_spec (token text : String) (retries : Nat)
    (oracle : Nat → AttemptOutcome)
    (h : pyEmpty token = true ∨ pyIn placeholderToken token = true) :
    query_summarization_model token text retries oracle =
      { summary := none, error := some configErrorMsg, warnings := [], requests := [] } := by
  have hb : (pyEmpty token || pyIn placeholderToken token) = true := by
    rcases h with h | h <;> simp [h]
  unfold query_summarization_model
  rw [hb]
  rfl

/-- C2: whenever the configured credential is empty or a placeholder,
query_summarization_model returns no summary with the configuration error,
flashes nothing, and issues zero HTTP requests. -/
theorem claim_C2_config_error_no_network (token text : String) (retries : Nat)
    (oracle : Nat → AttemptOutcome)
    (h : pyEmpty token = true ∨ pyIn placeholderToken token = true) :
    query_summarization_model token text retries oracle =
      { summary := none, error := some configErrorMsg, warnings := [], requests := [] } :=
  query_config_spec token text retries oracle h

theorem claim_C2_witness :
    (pyEmpty "" = true ∨ pyIn placeholderToken "" = true) ∧
      query_summarization_model "" "some text" 3 (fun _ => AttemptOutcome.reqExc "boom") =
        { summary := none, error := some configErrorMsg, warnings := [], requests := [] } :=
  ⟨Or.inl (by decide),
    claim_C2_config_error_no_network "" "some text" 3 (fun _ => AttemptOutcome.reqExc "boom")
      (Or.inl (by decide))⟩

/-- C8 is refuted as stated: for the decoded response carrying a null
summary_text value, line 60 returns that null together with None for the
error, so at the Python value level the returned pair is (None, None) and
neither component is present. -/
theorem claim_C8_counterexample :
    pyIsNone (query_summarization_model HF_API_TOKEN "text" 3
        (fun _ => AttemptOutcome.resp
          (JVal.jlist [JVal.jobj [("summary_text", JVal.jnull)]]))).summary = true ∧
      (query_summarization_model HF_API_TOKEN "text" 3
          (fun _ => AttemptOutcome.resp
            (JVal.jlist [JVal.jobj [("summary_text", JVal.jnull)]]))).error = none :=
  ⟨rfl, rfl⟩

/-- C8 (amended): the returned pair never has both components present, and
the only way to get neither is the line 60 return of a null summary field:
for every token, text, retries value and network outcome, either a non-None
summary comes with no error, or no summary comes with an error, or a decoded
null summary value comes with no error. -/
theorem claim_C8_amended_trichotomy (token text : String) (retries : Nat)
    (oracle : Nat → AttemptOutcome) :
    (pyIsNone (query_summarization_model token text retries oracle).summary = false ∧
        (query_summarization_model token text retries oracle).error = none) ∨
      ((query_summarization_model token text retries oracle).summary = none ∧
        (query_summarization_model token text retries oracle).error.isSome = true) ∨
      ((query_summarization_model token text retries oracle).summary = some JVal.jnull ∧
        (query_summarization_model token text retries oracle).error = none) := by
  unfold query_summarization_model
  cases hb : (pyEmpty token || pyIn placeholderToken token) with
  | true => simp
  | false =>
    cases retries with
    | zero => simp [retryLoop]
    | succ n =>
      simp only [Bool.false_eq_true, if_false, retryLoop]
      cases ho : oracle 0 with
      | resp j =>
        rcases parseResponse_trichotomy j with ⟨h1, h2⟩ | ⟨h1, h2⟩ | ⟨h1, h2⟩
        · exact Or.inl ⟨by simpa [attemptResult] using h1, by simpa [attemptResult] using h2⟩
        · exact Or.inr (Or.inl
            ⟨by simpa [attemptResult] using h1, by simpa [attemptResult] using h2⟩)
        · exact Or.inr (Or.inr
            ⟨by simpa [attemptResult] using h1, by simpa [attemptResult] using h2⟩)
      | reqExc e => exact Or.inr (Or.inl ⟨rfl, rfl⟩)
      | otherExc e => exact Or.inr (Or.inl ⟨rfl, rfl⟩)

/-- C10: the configuration error is returned exactly when the token is empty
or contains the placeholder substring; under the shipped default token the
check passes and, with at least one retry, an HTTP request is attempted. -/
theorem claim_C10_token_check (token text : String) (retries : Nat)
    (oracle : Nat → AttemptOutcome) :
    ((query_summarization_model token text retries oracle).error = some configErrorMsg ↔
        (pyEmpty token = true ∨ pyIn placeholderToken token = true)) ∧
      (1 ≤ retries →
        (query_summarization_model HF_API_TOKEN text retries oracle).requests ≠ []) := by
  constructor
  · constructor
    · intro herr
      by_contra hno
      push_neg at hno
      have hb : (pyEmpty token || pyIn placeholderToken token) = false := by
        simp only [Bool.or_eq_false_iff]
        exact ⟨by simpa using hno.1, by simpa using hno.2⟩
      cases retries with
      | zero =>
        rw [show query_summarization_model token text 0 oracle =
            { summary := none, error := some retriesExhaustedMsg,
              warnings := if 5120 < pyLen text then [truncationWarningMsg] else [],
              requests := [] } from by unfold query_summarization_model retryLoop; simp [hb]]
            at herr
        exact absurd (Option.some.inj herr) (by decide)
      | succ n =>
        rw [query_spec_attempt token text n oracle hb] at herr
        exact attemptResult_error_ne_config (oracle 0) herr
    · intro h
      rw [query_config_spec token text retries oracle h]
  · intro hr
    obtain ⟨n, rfl⟩ : ∃ n, retries = n + 1 := ⟨retries - 1, by omega⟩
    rw [query_spec_attempt HF_API_TOKEN text n oracle (by decide)]
    simp

theorem claim_C10_witness :
    ((query_summarization_model "HF_TOKEN" "abc" 1
          (fun _ => AttemptOutcome.reqExc "down")).error = some configErrorMsg ↔
        (pyEmpty "HF_TOKEN" = true ∨ pyIn placeholderToken "HF_TOKEN" = true)) ∧
      (query_summarization_model HF_API_TOKEN "abc" 1
          (fun _ => AttemptOutcome.reqExc "down")).requests ≠ [] :=
  ⟨(claim_C10_token_check "HF_TOKEN" "abc" 1 (fun _ => AttemptOutcome.reqExc "down")).1,
    (claim_C10_token_check "HF_TOKEN" "abc" 1 (fun _ => AttemptOutcome.reqExc "down")).2
      (by decide)⟩

/-- C6: with the shipped token and the default three retries, input longer
than 5120 characters is sent cut to exactly 5120 characters with the
truncation warning flashed; input of length at most 5120 is sent unmodified
with no warning. -/
theorem claim_C6_truncation (text : String) (oracle : Nat → AttemptOutcome) :
    (5120 < pyLen text →
        (query_summarization_model HF_API_TOKEN text 3 oracle).requests = [pySlice text 5120] ∧
          pyLen (pySlice text 5120) = 5120 ∧
          (query_summarization_model HF_API_TOKEN text 3 oracle).warnings =
            [truncationWarningMsg]) ∧
      (pyLen text ≤ 5120 →
        (query_summarization_model HF_API_TOKEN text 3 oracle).requests = [text] ∧
          (query_summarization_model HF_API_TOKEN text 3 oracle).warnings = []) := by
  rw [query_spec_attempt HF_API_TOKEN text 2 oracle (by decide)]
  constructor
  · intro h
    have hl : (text.data.take 5120).length = 5120 := by
      rw [List.length_take]
      have : 5120 < text.data.length := h
      omega
    exact ⟨by simp [h], hl, by simp [h]⟩
  · intro h
    have h2 : ¬ 5120 < pyLen text := by omega
    exact ⟨by simp [h2], by simp [h2]⟩

/-- A pasted text of 5121 identical characters, exceeding the truncation
budget by one. -/
def longText : String := String.mk (List.replicate 5121 'a')

theorem claim_C6_witness :
    5120 < pyLen longText ∧
      ((query_summarization_model HF_API_TOKEN longText 3
            (fun _ => AttemptOutcome.reqExc "x")).requests = [pySlice longText 5120] ∧
        pyLen (pySlice longText 5120) = 5120 ∧
        (query_summarization_model HF_API_TOKEN longText 3
            (fun _ => AttemptOutcome.reqExc "x")).warnings = [truncationWarningMsg]) := by
  have hlen : 5120 < pyLen longText := by
    have h : pyLen longText = 5121 := by
      show (List.replicate 5121 'a').length = 5121
      exact List.length_replicate 5121 'a'
    omega
  exact ⟨hlen, (claim_C6_truncation longText (fun _ => AttemptOutcome.reqExc "x")).1 hlen⟩

/-- Response shape the claim calls success: a non-empty list whose first
element is a JSON object carrying the key summary_text. -/
def successShape (j : JVal) : Bool :=
  match j with
  | JVal.jlist (JVal.jobj fields :: _) => (lookupField fields "summary_text").isSome
  | _ => false

/-- Shapes on which the Python membership test or the subsequent indexing of
the first element raises TypeError instead of evaluating to a Boolean: a
non-empty list whose first element is null, a Boolean or a number, or a
string or list that does contain "summary_text". -/
def membershipRaises (j : JVal) : Bool :=
  match j with
  | JVal.jlist (first :: _) =>
    match first with
    | JVal.jobj _ => false
    | JVal.jstr s => pyIn "summary_text" s
    | JVal.jlist ys => listHasStr ys "summary_text"
    | _ => true
  | _ => false

/-- Shape characterization of the response parsing: success exactly on the
success shape; the parse error on every other shape that does not raise
TypeError; an unexpected-exception error on the raising shapes. -/
theorem parseResponse_shape_characterization (j : JVal) :
    (((parseResponse j).1.isSome = true ∧ (parseResponse j).2 = none) ↔
        successShape j = true) ∧
      (successShape j = false → membershipRaises j = false →
        (parseResponse j).1 = none ∧ (parseResponse j).2 = some parseErrorMsg) ∧
      (membershipRaises j = true →
        (parseResponse j).1 = none ∧
          ∃ e, (parseResponse j).2 = some (unexpectedErrorMsg e)) := by
  rcases j with _ | b | n | s | xs | fs
  · exact ⟨by simp [parseResponse, successShape], fun _ _ => ⟨rfl, rfl⟩, fun h => absurd h (by simp [membershipRaises])⟩
  · exact ⟨by simp [parseResponse, successShape], fun _ _ => ⟨rfl, rfl⟩, fun h => absurd h (by simp [membershipRaises])⟩
  · exact ⟨by simp [parseResponse, successShape], fun _ _ => ⟨rfl, rfl⟩, fun h => absurd h (by simp [membershipRaises])⟩
  · exact ⟨by simp [parseResponse, successShape], fun _ _ => ⟨rfl, rfl⟩, fun h => absurd h (by simp [membershipRaises])⟩
  · rcases xs with _ | ⟨first, rest⟩
    · exact ⟨by simp [parseResponse, successShape], fun _ _ => ⟨rfl, rfl⟩, fun h => absurd h (by simp [membershipRaises])⟩
    · rcases first with _ | b | n | s | ys | fields
      · exact ⟨by simp [parseResponse, successShape], fun _ hmr => absurd hmr (by simp [membershipRaises]),
          fun _ => ⟨rfl, ⟨inTypeErrorText JVal.jnull, rfl⟩⟩⟩
      · exact ⟨by simp [parseResponse, successShape], fun _ hmr => absurd hmr (by simp [membershipRaises]),
          fun _ => ⟨rfl, ⟨inTypeErrorText (JVal.jbool b), rfl⟩⟩⟩
      · exact ⟨by simp [parseResponse, successShape], fun _ hmr => absurd hmr (by simp [membershipRaises]),
          fun _ => ⟨rfl, ⟨inTypeErrorText (JVal.jnum n), rfl⟩⟩⟩
      · by_cases hp : pyIn "summary_text" s = true
        · refine ⟨by simp [parseResponse, successShape, hp], ?_, ?_⟩
          · intro _ hmr
            exact absurd hmr (by simp [membershipRaises, hp])
          · intro _
            exact ⟨by simp [parseResponse, hp],
              ⟨strIndexTypeErrorText, by simp [parseResponse, hp]⟩⟩
        · refine ⟨by simp [parseResponse, successShape, hp], ?_, ?_⟩
          · intro _ _
            exact ⟨by simp [parseResponse, hp], by simp [parseResponse, hp]⟩
          · intro hmr
            exact absurd hmr (by simp [membershipRaises, hp])
      · by_cases hp : listHasStr ys "summary_text" = true
        · refine ⟨by simp [parseResponse, successShape, hp], ?_, ?_⟩
          · intro _ hmr
            exact absurd hmr (by simp [membershipRaises, hp])
          · intro _
            exact ⟨by simp [parseResponse, hp],
              ⟨listIndexTypeErrorText, by simp [parseResponse, hp]⟩⟩
        · refine ⟨by simp [parseResponse, successShape, hp], ?_, ?_⟩
          · intro _ _
            exact ⟨by simp [parseResponse, hp], by simp [parseResponse, hp]⟩
          · intro hmr
            exact absurd hmr (by simp [membershipRaises, hp])
      · cases hl : lookupField fields "summary_text" with
        | none =>
          refine ⟨by simp [parseResponse, successShape, hl], ?_, fun hmr => absurd hmr (by simp [membershipRaises])⟩
          intro _ _
          exact ⟨by simp [parseResponse, hl], by simp [parseResponse, hl]⟩
        | some v =>
          refine ⟨by simp [parseResponse, successShape, hl], ?_, fun hmr => absurd hmr (by simp [membershipRaises])⟩
          intro hs
          exact absurd hs (by simp [successShape, hl])
  · exact ⟨by simp [parseResponse, successShape], fun _ _ => ⟨rfl, rfl⟩, fun h => absurd h (by simp [membershipRaises])⟩

/-- C5 (amended): a decoded response yields the summary with no error exactly
when it is a non-empty list whose first element is an object carrying the key
summary_text; every other shape yields no summary, with the parse-error
message unless the Python membership test or indexing on the first element
raises TypeError, in which case the unexpected-error message of the line 66
handler is returned instead. -/
theorem claim_C5_amended_parse_shapes (j : JVal) (text : String)
    (oracle : Nat → AttemptOutcome) (h0 : oracle 0 = AttemptOutcome.resp j) :
    (((query_summarization_model HF_API_TOKEN text 3 oracle).summary.isSome = true ∧
        (query_summarization_model HF_API_TOKEN text 3 oracle).error = none) ↔
      successShape j = true) ∧
    (successShape j = false → membershipRaises j = false →
      (query_summarization_model HF_API_TOKEN text 3 oracle).summary = none ∧
      (query_summarization_model HF_API_TOKEN text 3 oracle).error = some parseErrorMsg) ∧
    (membershipRaises j = true →
      (query_summarization_model HF_API_TOKEN text 3 oracle).summary = none ∧
      ∃ e, (query_summarization_model HF_API_TOKEN text 3 oracle).error =
        some (unexpectedErrorMsg e)) := by
  rw [query_spec_attempt HF_API_TOKEN text 2 oracle (by decide), h0]
  exact parseResponse_shape_characterization j

/-- A well-formed model response carrying one summary object. -/
def sampleGoodResponse : JVal :=
  JVal.jlist [JVal.jobj [("summary_text", JVal.jstr "Plain text summary.")]]

/-- Oracle answering every model POST with `sampleGoodResponse`. -/
def sampleGoodOracle : Nat → AttemptOutcome :=
  fun _ => AttemptOutcome.resp sampleGoodResponse

theorem claim_C5_witness :
    (((query_summarization_model HF_API_TOKEN "txt" 3 sampleGoodOracle).summary.isSome = true ∧
        (query_summarization_model HF_API_TOKEN "txt" 3 sampleGoodOracle).error = none) ↔
      successShape sampleGoodResponse = true) ∧
    (successShape sampleGoodResponse = false → membershipRaises sampleGoodResponse = false →
      (query_summarization_model HF_API_TOKEN "txt" 3 sampleGoodOracle).summary = none ∧
      (query_summarization_model HF_API_TOKEN "txt" 3 sampleGoodOracle).error =
        some parseErrorMsg) ∧
    (membershipRaises sampleGoodResponse = true →
      (query_summarization_model HF_API_TOKEN "txt" 3 sampleGoodOracle).summary = none ∧
      ∃ e, (query_summarization_model HF_API_TOKEN "txt" 3 sampleGoodOracle).error =
        some (unexpectedErrorMsg e)) :=
  claim_C5_amended_parse_shapes sampleGoodResponse "txt" sampleGoodOracle rfl

/-- C5 is refuted as stated: the decoded value `[5]` is not of the success
shape, yet the returned error is the unexpected-exception message of the
TypeError handler, not the parse-error message the claim requires. -/
theorem claim_C5_counterexample :
    successShape (JVal.jlist [JVal.jnum 5]) = false ∧
      (query_summarization_model HF_API_TOKEN "anything" 3
          (fun _ => AttemptOutcome.resp (JVal.jlist [JVal.jnum 5]))).summary = none ∧
      (query_summarization_model HF_API_TOKEN "anything" 3
          (fun _ => AttemptOutcome.resp (JVal.jlist [JVal.jnum 5]))).error =
        some (unexpectedErrorMsg (inTypeErrorText (JVal.jnum 5))) ∧
      unexpectedErrorMsg (inTypeErrorText (JVal.jnum 5)) ≠ parseErrorMsg := by
  exact ⟨rfl, rfl, rfl, by decide⟩

/-- The query flashes at most the truncation warning. -/
theorem query_warnings_cases (token text : String) (retries : Nat)
    (oracle : Nat → AttemptOutcome) :
    (query_summarization_model token text retries oracle).warnings = [] ∨
      (query_summarization_model token text retries oracle).warnings =
        [truncationWarningMsg] := by
  by_cases hb : (pyEmpty token || pyIn placeholderToken token) = true
  · rw [query_config_spec token text retries oracle (by simpa using hb)]
    exact Or.inl rfl
  · have hb2 : (pyEmpty token || pyIn placeholderToken token) = false := by
      simpa using hb
    unfold query_summarization_model
    rw [hb2]
    by_cases hl : 5120 < pyLen text
    · exact Or.inr (by simp [hl])
    · exact Or.inl (by simp [hl])

/-- When extraction reports an error, it returns no text. -/
theorem get_text_err_no_text (f : FetchOutcome)
    (h : (get_text_from_url f).2.isSome = true) : (get_text_from_url f).1 = none := by
  cases f with
  | ok t =>
    by_cases ht : pyEmpty t = true
    · simp [get_text_from_url, ht]
    · simp [get_text_from_url, ht] at h
  | exc e => rfl

/-- When extraction returns text, it reports no error. -/
theorem get_text_some_no_err (f : FetchOutcome)
    (h : (get_text_from_url f).1.isSome = true) : (get_text_from_url f).2 = none := by
  cases f with
  | ok t =>
    by_cases ht : pyEmpty t = true
    · simp [get_text_from_url, ht] at h
    · simp [get_text_from_url, ht]
  | exc e => simp [get_text_from_url] at h

/-- A string whose lower-cased form starts with "http" is non-empty. -/
theorem startsWith_http_nonempty (s : String)
    (h : pyStartsWith (pyLower s) "http" = true) : pyEmpty s = false := by
  rcases s with ⟨l⟩
  cases l with
  | nil => exact absurd h (by decide)
  | cons c cs => rfl

/-- The summarization tail preserves the source description. -/
theorem runSummarization_source (src : String) (fl : List (String × String))
    (t token : String) (oracle : Nat → AttemptOutcome) :
    (runSummarization src fl t token oracle).source_info = src := by
  unfold runSummarization
  cases hqe : (query_summarization_model token t 3 oracle).error with
  | some e => simp [hqe]
  | none =>
    cases hqs : (query_summarization_model token t 3 oracle).summary with
    | none => simp [hqe, hqs]
    | some v =>
      by_cases hj : jtruthy v = true
      · cases v <;> simp [hqe, hqs, hj]
      · simp [hqe, hqs, hj]

/-- The summarization tail records the article text it was given. -/
theorem runSummarization_article (src : String) (fl : List (String × String))
    (t token : String) (oracle : Nat → AttemptOutcome) :
    (runSummarization src fl t token oracle).article_text = some t := by
  unfold runSummarization
  cases hqe : (query_summarization_model token t 3 oracle).error with
  | some e => simp [hqe]
  | none =>
    cases hqs : (query_summarization_model token t 3 oracle).summary with
    | none => simp [hqe, hqs]
    | some v =>
      by_cases hj : jtruthy v = true
      · cases v <;> simp [hqe, hqs, hj]
      · simp [hqe, hqs, hj]

/-- If the summarization tail rendered a non-empty bullet list, the only
flashes after the inherited prefix are the info message, at most the
truncation warning, and the success message. -/
theorem runSummarization_flashes_of_bullets (src : String) (fl : List (String × String))
    (t token : String) (oracle : Nat → AttemptOutcome)
    (hb : (runSummarization src fl t token oracle).bullet_points ≠ []) :
    (runSummarization src fl t token oracle).flashes =
        fl ++ [(acquiredMsg, "info"), (successMsg, "success")] ∨
      (runSummarization src fl t token oracle).flashes =
        fl ++ [(acquiredMsg, "info"), (truncationWarningMsg, "warning"),
          (successMsg, "success")] := by
  unfold runSummarization at hb ⊢
  cases hqe : (query_summarization_model token t 3 oracle).error with
  | some e => simp [hqe] at hb
  | none =>
    cases hqs : (query_summarization_model token t 3 oracle).summary with
    | none => simp [hqe, hqs] at hb
    | some v =>
      by_cases hj : jtruthy v = true
      · cases v with
        | jstr s =>
          rcases query_warnings_cases token t 3 oracle with hw | hw
          · exact Or.inl (by simp [hqe, hqs, hj, hw])
          · exact Or.inr (by simp [hqe, hqs, hj, hw])
        | jnull => simp [hqe, hqs, hj] at hb
        | jbool b => simp [hqe, hqs, hj] at hb
        | jnum n => simp [hqe, hqs, hj] at hb
        | jlist xs => simp [hqe, hqs, hj] at hb
        | jobj fs => simp [hqe, hqs, hj] at hb
      · simp [hqe, hqs, hj] at hb

/-- C3 (amended): a POST request renders a non-empty bullet list only when
the whole pipeline succeeded, and then the only flashed messages are the
acquisition info message, optionally the truncation warning, and the success
message; in particular any error flash, or any warning other than the
truncation warning, comes with an empty bullet list. -/
theorem claim_C3_amended_no_partial (raw : String) (fetch : FetchOutcome) (token : String)
    (oracle : Nat → AttemptOutcome)
    (hb : (summarizerPost raw fetch token oracle).bullet_points ≠ []) :
    (summarizerPost raw fetch token oracle).flashes =
        [(acquiredMsg, "info"), (successMsg, "success")] ∨
      (summarizerPost raw fetch token oracle).flashes =
        [(acquiredMsg, "info"), (truncationWarningMsg, "warning"), (successMsg, "success")] := by
  unfold summarizerPost at hb ⊢
  by_cases h1 : pyEmpty (pyStrip raw) = true
  · simp [h1] at hb
  · simp only [h1, Bool.false_eq_true, if_false] at hb ⊢
    by_cases h2 : pyStartsWith (pyLower (pyStrip raw)) "http" = true
    · simp only [h2, if_true] at hb ⊢
      cases hres : (get_text_from_url fetch).1 with
      | none => simp [hres] at hb
      | some t =>
        have herr : (get_text_from_url fetch).2 = none :=
          get_text_some_no_err fetch (by simp [hres])
        by_cases ht : pyEmpty t = true
        · simp [hres, ht] at hb
        · simp only [hres, herr, ht, Bool.false_eq_true, if_false] at hb ⊢
          simpa using runSummarization_flashes_of_bullets _ [] t token oracle (by simpa using hb)
    · simp only [h2, Bool.false_eq_true, if_false] at hb ⊢
      simpa using
        runSummarization_flashes_of_bullets "From Pasted Text" [] (pyStrip raw) token oracle hb

theorem claim_C3_witness :
    (summarizerPost "Hello there." (FetchOutcome.exc "unused") HF_API_TOKEN
        sampleGoodOracle).bullet_points ≠ [] ∧
      ((summarizerPost "Hello there." (FetchOutcome.exc "unused") HF_API_TOKEN
            sampleGoodOracle).flashes = [(acquiredMsg, "info"), (successMsg, "success")] ∨
        (summarizerPost "Hello there." (FetchOutcome.exc "unused") HF_API_TOKEN
            sampleGoodOracle).flashes =
          [(acquiredMsg, "info"), (truncationWarningMsg, "warning"), (successMsg, "success")]) :=
  have hb : (summarizerPost "Hello there." (FetchOutcome.exc "unused") HF_API_TOKEN
      sampleGoodOracle).bullet_points ≠ [] := by decide
  ⟨hb, claim_C3_amended_no_partial "Hello there." (FetchOutcome.exc "unused") HF_API_TOKEN
    sampleGoodOracle hb⟩

theorem dropWhile_ws_replicate_a (n : Nat) :
    List.dropWhile Char.isWhitespace (List.replicate n 'a') = List.replicate n 'a' := by
  cases n with
  | zero => rfl
  | succ m =>
    rw [List.replicate_succ, List.dropWhile_cons, if_neg (by decide)]

theorem strip_longText : pyStrip longText = longText := by
  show String.mk
      ((((List.replicate 5121 'a').dropWhile
          Char.isWhitespace).reverse.dropWhile Char.isWhitespace).reverse) = longText
  rw [dropWhile_ws_replicate_a, List.reverse_replicate, dropWhile_ws_replicate_a,
    List.reverse_replicate]
  rfl

theorem len_longText : pyLen longText = 5121 := by
  show (List.replicate 5121 'a').length = 5121
  exact List.length_replicate 5121 'a'

theorem notEmpty_longText : pyEmpty longText = false := by
  have h := len_longText
  rcases hdata : longText.data with _ | ⟨c, cs⟩
  · rw [show pyLen longText = longText.data.length from rfl, hdata] at h
    simp at h
  · simp [pyEmpty, hdata]

theorem replicate_5121_cons : List.replicate 5121 'a' = 'a' :: List.replicate 5120 'a' := by
  rw [← List.replicate_succ]

theorem notHttp_longText : pyStartsWith (pyLower longText) "http" = false := by
  show ("http".data.isPrefixOf ((List.replicate 5121 'a').map Char.toLower)) = false
  rw [List.map_replicate, show Char.toLower 'a' = 'a' from rfl, replicate_5121_cons]
  rfl

theorem query_longText_good :
    query_summarization_model HF_API_TOKEN longText 3 sampleGoodOracle =
      { summary := some (JVal.jstr "Plain text summary."), error := none,
        warnings := [truncationWarningMsg], requests := [pySlice longText 5120] } := by
  rw [query_spec_attempt HF_API_TOKEN longText 2 sampleGoodOracle (by decide)]
  have hlen : 5120 < pyLen longText := by
    rw [len_longText]
    omega
  rw [if_pos hlen, if_pos hlen]
  rfl

theorem summarizerPost_longText :
    summarizerPost longText (FetchOutcome.exc "unused") HF_API_TOKEN sampleGoodOracle =
      { bullet_points := ["Plain text summary."], source_info := "From Pasted Text",
        flashes := [(acquiredMsg, "info"), (truncationWarningMsg, "warning"),
          (successMsg, "success")],
        modelCalls := 1, article_text := some longText, rendered := true } := by
  unfold summarizerPost
  rw [strip_longText]
  simp only [notEmpty_longText, notHttp_longText, Bool.false_eq_true, if_false]
  unfold runSummarization
  rw [query_longText_good]
  rfl

/-- C3 is refuted as stated: a pasted text one character over the truncation
budget, with the model succeeding, flashes the truncation warning (a warning
message produced by the summarization stage) while still rendering a
non-empty bullet list. -/
theorem claim_C3_counterexample :
    (truncationWarningMsg, "warning") ∈
        (summarizerPost longText (FetchOutcome.exc "unused") HF_API_TOKEN
          sampleGoodOracle).flashes ∧
      (summarizerPost longText (FetchOutcome.exc "unused") HF_API_TOKEN
          sampleGoodOracle).bullet_points = ["Plain text summary."] ∧
      (summarizerPost longText (FetchOutcome.exc "unused") HF_API_TOKEN
          sampleGoodOracle).bullet_points ≠ [] := by
  refine ⟨?_, ?_, ?_⟩ <;> rw [summarizerPost_longText] <;> simp

/-- C4: when the stripped input is empty, or it is classified as a URL and
extraction reports an error, the handler never calls the summarization
model. -/
theorem claim_C4_no_model_call (raw : String) (fetch : FetchOutcome) (token : String)
    (oracle : Nat → AttemptOutcome)
    (h : pyEmpty (pyStrip raw) = true ∨
      (pyStartsWith (pyLower (pyStrip raw)) "http" = true ∧
        (get_text_from_url fetch).2.isSome = true)) :
    (summarizerPost raw fetch token oracle).modelCalls = 0 := by
  rcases h with h | ⟨hurl, herr⟩
  · unfold summarizerPost
    simp [h]
  · have hne : pyEmpty (pyStrip raw) = false := startsWith_http_nonempty (pyStrip raw) hurl
    have htext : (get_text_from_url fetch).1 = none := get_text_err_no_text fetch herr
    unfold summarizerPost
    simp [hne, hurl, htext]

theorem claim_C4_witness :
    (pyEmpty (pyStrip "") = true ∨
        (pyStartsWith (pyLower (pyStrip "")) "http" = true ∧
          (get_text_from_url (FetchOutcome.exc "connection refused")).2.isSome = true)) ∧
      (summarizerPost "" (FetchOutcome.exc "connection refused") HF_API_TOKEN
          sampleGoodOracle).modelCalls = 0 :=
  ⟨Or.inl (by decide),
    claim_C4_no_model_call "" (FetchOutcome.exc "connection refused") HF_API_TOKEN
      sampleGoodOracle (Or.inl (by decide))⟩

/-- C7: a non-empty input whose lower-cased stripped form does not start with
"http" is used unchanged as the article text, the source description is
"From Pasted Text", and the URL extractor is never consulted. -/
theorem claim_C7_pasted_text (raw : String) (fetch fetch2 : FetchOutcome) (token : String)
    (oracle : Nat → AttemptOutcome)
    (h1 : pyEmpty (pyStrip raw) = false)
    (h2 : pyStartsWith (pyLower (pyStrip raw)) "http" = false) :
    (summarizerPost raw fetch token oracle).source_info = "From Pasted Text" ∧
      (summarizerPost raw fetch token oracle).article_text = some (pyStrip raw) ∧
      summarizerPost raw fetch token oracle = summarizerPost raw fetch2 token oracle := by
  unfold summarizerPost
  simp only [h1, h2, Bool.false_eq_true, if_false]
  refine ⟨runSummarization_source "From Pasted Text" [] (pyStrip raw) token oracle,
    runSummarization_article "From Pasted Text" [] (pyStrip raw) token oracle, ?_⟩
  trivial

theorem claim_C7_witness :
    pyEmpty (pyStrip "hello world") = false ∧
      pyStartsWith (pyLower (pyStrip "hello world")) "http" = false ∧
      ((summarizerPost "hello world" (FetchOutcome.ok "ignored") HF_API_TOKEN
            sampleGoodOracle).source_info = "From Pasted Text" ∧
        (summarizerPost "hello world" (FetchOutcome.ok "ignored") HF_API_TOKEN
            sampleGoodOracle).article_text = some (pyStrip "hello world") ∧
        summarizerPost "hello world" (FetchOutcome.ok "ignored") HF_API_TOKEN sampleGoodOracle =
          summarizerPost "hello world" (FetchOutcome.exc "down") HF_API_TOKEN sampleGoodOracle) :=
  ⟨by decide, by decide,
    claim_C7_pasted_text "hello world" (FetchOutcome.ok "ignored") (FetchOutcome.exc "down")
      HF_API_TOKEN sampleGoodOracle (by decide) (by decide)⟩

/-- C9: the modelled sentence splitter maps the single already-split sentence
to the one-element list holding it unchanged. -/
theorem claim_C9_splitter_idempotent :
    sent_tokenize "One sentence." = ["One sentence."] := by
  rfl
